import Mathlib

/-!
Verification development for the task-planner repository.

The definitions below are a shallow embedding of the notify/parse pipeline
of src/app.py. Absolute instants are modelled as Nat (seconds since an
epoch, UTC). External collaborators (Airtable, SMTP, the Gemini SDK,
dateparser) are modelled as explicit inputs: the store is a list of task
records, and each fallible network call is an Except-valued argument, so
that the control flow of the Python code (its try/except blocks and
truthiness checks) is reproduced faithfully while the collaborator
behaviour stays abstract.
-/

/-- Python truthiness of an optional string: None and the empty string are
falsy, every other string is truthy. -/
def pyTruthy : Option String → Bool
  | none => false
  | some s => !(s == "")

/-- One Airtable task record, as read by the code in src/app.py: the fields
Task Name, Reminder Local, Email, Completed and Last Notified At of a record
with an opaque id. Times are Nat seconds (UTC). A missing field is none
(respectively false for the Completed checkbox). -/
structure TaskRecord where
  id : String
  taskName : Option String
  reminderLocal : Option Nat
  email : Option String
  completed : Bool
  lastNotifiedAt : Option Nat
deriving Repr, DecidableEq

/-- The task owner email is truthy, so the send branch of the loop in
notify_due_tasks runs (src/app.py line 522). -/
def emailTruthy (t : TaskRecord) : Bool := pyTruthy t.email

/-- DATETIME_DIFF(now, l, minutes) of the Airtable formula in
notify_due_tasks: the whole number of minutes from l to now, truncated
toward zero (a negative difference truncates to 0 under Nat subtraction,
which like the negative Airtable value is below the threshold 1). -/
def minutesDiff (now l : Nat) : Nat := (now - l) / 60

/-- The filter formula sent to the store by notify_due_tasks
(src/app.py lines 494-503): Completed is 0, Reminder Local is at most now,
and Last Notified At is blank or at least one whole minute old. A blank
Reminder Local is modelled as failing the comparison with now, per the
store contract of the data model (a record with no reminder is not due). -/
def dueFilter (now : Nat) (t : TaskRecord) : Bool :=
  !t.completed
    && (match t.reminderLocal with
        | some rt => decide (rt ≤ now)
        | none => false)
    && (match t.lastNotifiedAt with
        | none => true
        | some l => decide (1 ≤ minutesDiff now l))

/-- The records returned by the store for the filter formula of
notify_due_tasks: exactly the members of the store satisfying dueFilter. -/
def dueQuery (store : List TaskRecord) (now : Nat) : List TaskRecord :=
  store.filter (dueFilter now)

/-- The suppression window of the formula in notify_due_tasks: one minute,
in seconds. -/
def suppressionWindowSeconds : Nat := 60

/-- send_reminder_email (src/app.py lines 472-487): attempts the SMTP
delivery, returns true on success and false on any exception; it never
raises to its caller. The SMTP interaction is the Except argument. -/
def send_reminder_email (smtpResult : Except String Unit) : Bool :=
  match smtpResult with
  | Except.ok _ => true
  | Except.error _ => false

/-- Whether an external call completed without an exception. -/
def exceptOk (r : Except String Unit) : Bool :=
  match r with
  | Except.ok _ => true
  | Except.error _ => false

/-- The Airtable PATCH issued after a successful send (src/app.py lines
524-528): set Last Notified At of the record with the given id to now.
Applied to the modelled store it rewrites exactly the records carrying
that id and no other field. -/
def patchLastNotified (store : List TaskRecord) (rid : String) (now : Nat) :
    List TaskRecord :=
  store.map fun q =>
    if q.id = rid then { q with lastNotifiedAt := some now } else q

/-- Observable outcome of one Notifier tick: the store after the tick, the
ids for which send_reminder_email was invoked (in scan order), and the ids
for which it returned true. -/
structure TickResult where
  store : List TaskRecord
  attempted : List String
  sent : List String
deriving Repr, DecidableEq

/-- One iteration of the loop of notify_due_tasks (src/app.py lines
516-530): if the owner email is truthy, attempt the send; if the send
succeeds, try to PATCH Last Notified At to now (a PATCH exception is
caught and leaves the store unchanged). -/
def processRecord (smtp patchReq : String → Except String Unit) (now : Nat)
    (acc : TickResult) (rec : TaskRecord) : TickResult :=
  if emailTruthy rec then
    if send_reminder_email (smtp rec.id) then
      TickResult.mk
        (if exceptOk (patchReq rec.id) then
          patchLastNotified acc.store rec.id now
        else acc.store)
        (acc.attempted ++ [rec.id])
        (acc.sent ++ [rec.id])
    else
      TickResult.mk acc.store (acc.attempted ++ [rec.id]) acc.sent
  else acc

/-- notify_due_tasks (src/app.py lines 489-530), one tick at time now.
queryFails models the try/except around the store GET (and the missing-url
case): on a failure the records list is empty and the loop body never runs,
so the function still returns normally. The smtp and patchReq arguments
give the outcome of the SMTP call and of the PATCH for each record id. -/
def notify_due_tasks (queryFails : Bool)
    (smtp patchReq : String → Except String Unit)
    (now : Nat) (store : List TaskRecord) : TickResult :=
  let records := if queryFails then [] else dueQuery store now
  records.foldl (processRecord smtp patchReq now) (TickResult.mk store [] [])

/-- The selection predicate exactly as the specification words it: the task
is not completed, its reminder timestamp exists and is at most now, and its
last-notified field is empty or at least the suppression window old. -/
def specSelects (now window : Nat) (t : TaskRecord) : Prop :=
  t.completed = false ∧
  (∃ rt, t.reminderLocal = some rt ∧ rt ≤ now) ∧
  (t.lastNotifiedAt = none ∨
    ∃ l, t.lastNotifiedAt = some l ∧ window ≤ now - l)

/-- A send is attempted for a record when its owner email is truthy, and it
succeeds when additionally the SMTP call returns without an exception. -/
def sendSucceeds (smtp : String → Except String Unit) (rec : TaskRecord) :
    Bool :=
  emailTruthy rec && send_reminder_email (smtp rec.id)

/-- A record gets its Last Notified At patched when its send succeeded and
the PATCH call itself raised no exception. -/
def patchApplied (smtp patchReq : String → Except String Unit)
    (rec : TaskRecord) : Bool :=
  sendSucceeds smtp rec && exceptOk (patchReq rec.id)

/-- The ids patched during a scan over the given records. -/
def patchedIds (smtp patchReq : String → Except String Unit)
    (records : List TaskRecord) : List String :=
  (records.filter (patchApplied smtp patchReq)).map TaskRecord.id

/-- Pointwise effect of a whole scan on one stored record: its
Last Notified At becomes now exactly when its id was patched. -/
def patchFun (smtp patchReq : String → Except String Unit) (now : Nat)
    (records : List TaskRecord) (q : TaskRecord) : TaskRecord :=
  if q.id ∈ patchedIds smtp patchReq records then
    { q with lastNotifiedAt := some now }
  else q

/-- The ids for which send_reminder_email is invoked during a scan. -/
def attemptedIds (records : List TaskRecord) : List String :=
  (records.filter emailTruthy).map TaskRecord.id

/-- The ids for which send_reminder_email returns true during a scan. -/
def sentIds (smtp : String → Except String Unit)
    (records : List TaskRecord) : List String :=
  (records.filter (sendSucceeds smtp)).map TaskRecord.id

theorem patchFun_id_preserved (smtp patchReq : String → Except String Unit)
    (now : Nat) (records : List TaskRecord) (q : TaskRecord) :
    (patchFun smtp patchReq now records q).id = q.id := by
  unfold patchFun
  by_cases h : q.id ∈ patchedIds smtp patchReq records <;> simp [h]

theorem foldl_store_char (smtp patchReq : String → Except String Unit)
    (now : Nat) :
    ∀ (records : List TaskRecord) (acc : TickResult),
    (records.foldl (processRecord smtp patchReq now) acc).store
      = acc.store.map (patchFun smtp patchReq now records) := by
  intro records
  induction records with
  | nil =>
    intro acc
    have h : patchFun smtp patchReq now [] = fun q => q := by
      funext q
      simp [patchFun, patchedIds]
    rw [h]
    simp
  | cons rec rest ih =>
    intro acc
    rw [List.foldl_cons, ih]
    by_cases h1 : emailTruthy rec
    · by_cases h2 : send_reminder_email (smtp rec.id)
      · by_cases h3 : exceptOk (patchReq rec.id)
        · have hpa : patchApplied smtp patchReq rec = true := by
            simp [patchApplied, sendSucceeds, h1, h2, h3]
          have hstep : (processRecord smtp patchReq now acc rec).store
              = acc.store.map
                (fun q => if q.id = rec.id
                  then { q with lastNotifiedAt := some now } else q) := by
            simp [processRecord, h1, h2, h3, patchLastNotified]
          rw [hstep, List.map_map]
          have hids : patchedIds smtp patchReq (rec :: rest)
              = rec.id :: patchedIds smtp patchReq rest := by
            simp [patchedIds, List.filter_cons, hpa]
          have hfun : (patchFun smtp patchReq now rest) ∘
              (fun q => if q.id = rec.id
                then { q with lastNotifiedAt := some now } else q)
              = patchFun smtp patchReq now (rec :: rest) := by
            funext q
            by_cases hq : q.id = rec.id
            · simp only [Function.comp, hq, if_pos rfl]
              by_cases hm :
                  rec.id ∈ patchedIds smtp patchReq rest <;>
                simp [patchFun, hids, hq, hm]
            · simp only [Function.comp, if_neg hq]
              simp [patchFun, hids, hq]
          rw [hfun]
        · have hpa : patchApplied smtp patchReq rec = false := by
            simp [patchApplied, sendSucceeds, h3]
          have hids : patchedIds smtp patchReq (rec :: rest)
              = patchedIds smtp patchReq rest := by
            simp [patchedIds, List.filter_cons, hpa]
          have hstep : (processRecord smtp patchReq now acc rec).store
              = acc.store := by
            simp [processRecord, h1, h2, h3]
          rw [hstep]
          simp [patchFun, hids]
      · have hpa : patchApplied smtp patchReq rec = false := by
          simp [patchApplied, sendSucceeds, h2]
        have hids : patchedIds smtp patchReq (rec :: rest)
            = patchedIds smtp patchReq rest := by
          simp [patchedIds, List.filter_cons, hpa]
        have hstep : (processRecord smtp patchReq now acc rec).store
            = acc.store := by
          simp [processRecord, h1, h2]
        rw [hstep]
        simp [patchFun, hids]
    · have hpa : patchApplied smtp patchReq rec = false := by
        simp [patchApplied, sendSucceeds, emailTruthy] at h1 ⊢
        simp [h1]
      have hids : patchedIds smtp patchReq (rec :: rest)
          = patchedIds smtp patchReq rest := by
        simp [patchedIds, List.filter_cons, hpa]
      have hstep : (processRecord smtp patchReq now acc rec).store
          = acc.store := by
        simp [processRecord, h1]
      rw [hstep]
      simp [patchFun, hids]

theorem foldl_attempted_char (smtp patchReq : String → Except String Unit)
    (now : Nat) :
    ∀ (records : List TaskRecord) (acc : TickResult),
    (records.foldl (processRecord smtp patchReq now) acc).attempted
      = acc.attempted ++ attemptedIds records := by
  intro records
  induction records with
  | nil =>
    intro acc
    simp [attemptedIds]
  | cons rec rest ih =>
    intro acc
    rw [List.foldl_cons, ih]
    by_cases h1 : emailTruthy rec
    · have hids : attemptedIds (rec :: rest)
          = rec.id :: attemptedIds rest := by
        simp [attemptedIds, List.filter_cons, h1]
      by_cases h2 : send_reminder_email (smtp rec.id) <;>
        simp [processRecord, h1, h2, hids]
    · have hids : attemptedIds (rec :: rest) = attemptedIds rest := by
        simp [attemptedIds, List.filter_cons, h1]
      simp [processRecord, h1, hids]

theorem foldl_sent_char (smtp patchReq : String → Except String Unit)
    (now : Nat) :
    ∀ (records : List TaskRecord) (acc : TickResult),
    (records.foldl (processRecord smtp patchReq now) acc).sent
      = acc.sent ++ sentIds smtp records := by
  intro records
  induction records with
  | nil =>
    intro acc
    simp [sentIds]
  | cons rec rest ih =>
    intro acc
    rw [List.foldl_cons, ih]
    by_cases h1 : emailTruthy rec
    · by_cases h2 : send_reminder_email (smtp rec.id)
      · have hids : sentIds smtp (rec :: rest)
            = rec.id :: sentIds smtp rest := by
          simp [sentIds, List.filter_cons, sendSucceeds, h1, h2]
        simp [processRecord, h1, h2, hids]
      · have hids : sentIds smtp (rec :: rest) = sentIds smtp rest := by
          simp [sentIds, List.filter_cons, sendSucceeds, h2]
        simp [processRecord, h1, h2, hids]
    · have hids : sentIds smtp (rec :: rest) = sentIds smtp rest := by
        simp [sentIds, List.filter_cons, sendSucceeds, emailTruthy] at h1 ⊢
        simp [h1]
      simp [processRecord, h1, hids]

theorem notify_store_eq (smtp patchReq : String → Except String Unit)
    (now : Nat) (store : List TaskRecord) :
    (notify_due_tasks false smtp patchReq now store).store
      = store.map (patchFun smtp patchReq now (dueQuery store now)) := by
  unfold notify_due_tasks
  simp only [if_neg (Bool.false_ne_true)]
  exact foldl_store_char smtp patchReq now (dueQuery store now)
    (TickResult.mk store [] [])

theorem notify_attempted_eq (smtp patchReq : String → Except String Unit)
    (now : Nat) (store : List TaskRecord) :
    (notify_due_tasks false smtp patchReq now store).attempted
      = attemptedIds (dueQuery store now) := by
  unfold notify_due_tasks
  simp only [if_neg (Bool.false_ne_true)]
  rw [foldl_attempted_char smtp patchReq now (dueQuery store now)
    (TickResult.mk store [] [])]
  simp

theorem notify_sent_eq (smtp patchReq : String → Except String Unit)
    (now : Nat) (store : List TaskRecord) :
    (notify_due_tasks false smtp patchReq now store).sent
      = sentIds smtp (dueQuery store now) := by
  unfold notify_due_tasks
  simp only [if_neg (Bool.false_ne_true)]
  rw [foldl_sent_char smtp patchReq now (dueQuery store now)
    (TickResult.mk store [] [])]
  simp

theorem mem_dueQuery_iff (store : List TaskRecord) (now : Nat)
    (r : TaskRecord) :
    r ∈ dueQuery store now ↔ r ∈ store ∧ dueFilter now r = true := by
  unfold dueQuery
  exact List.mem_filter

theorem store_id_unique {store : List TaskRecord} {p q : TaskRecord}
    (hnodup : (store.map TaskRecord.id).Nodup)
    (hp : p ∈ store) (hq : q ∈ store) (hid : p.id = q.id) : p = q :=
  List.inj_on_of_nodup_map hnodup hp hq hid

theorem dueFilter_iff_specSelects (now : Nat) (t : TaskRecord) :
    dueFilter now t = true ↔ t.completed = false ∧
      (∃ rt, t.reminderLocal = some rt ∧ rt ≤ now) ∧
      (t.lastNotifiedAt = none ∨
        ∃ l, t.lastNotifiedAt = some l ∧ 60 ≤ now - l) := by
  unfold dueFilter
  cases hrem : t.reminderLocal with
  | none =>
    simp [hrem]
  | some rt =>
    cases hlast : t.lastNotifiedAt with
    | none =>
      simp [hrem, hlast, Bool.and_eq_true, Bool.not_eq_true']
    | some l =>
      have hdiv : (1 ≤ minutesDiff now l) ↔ 60 ≤ now - l := by
        unfold minutesDiff
        exact Nat.one_le_div_iff (by norm_num)
      simp [hrem, hlast, Bool.and_eq_true, Bool.not_eq_true', hdiv,
        and_assoc]

theorem dueFilter_mono {t1 t2 : Nat} {t : TaskRecord} (h12 : t1 ≤ t2)
    (h : dueFilter t1 t = true) : dueFilter t2 t = true := by
  rw [dueFilter_iff_specSelects] at h ⊢
  obtain ⟨hc, ⟨rt, hrt, hle⟩, hlast⟩ := h
  refine ⟨hc, ⟨rt, hrt, le_trans hle h12⟩, ?_⟩
  cases hlast with
  | inl hnone => exact Or.inl hnone
  | inr hsome =>
    obtain ⟨l, hl, hwin⟩ := hsome
    exact Or.inr ⟨l, hl, by omega⟩

theorem sentIds_nodup (smtp : String → Except String Unit)
    (store : List TaskRecord) (now : Nat)
    (hnodup : (store.map TaskRecord.id).Nodup) :
    (sentIds smtp (dueQuery store now)).Nodup := by
  have hsub :
      List.Sublist ((dueQuery store now).filter (sendSucceeds smtp))
        store :=
    List.Sublist.trans (List.filter_sublist _) (List.filter_sublist _)
  exact List.Nodup.sublist (hsub.map TaskRecord.id) hnodup

theorem mem_sentIds {smtp : String → Except String Unit}
    {records : List TaskRecord} {rid : String} :
    rid ∈ sentIds smtp records ↔
      ∃ q, q ∈ records ∧ sendSucceeds smtp q = true ∧ q.id = rid := by
  unfold sentIds
  simp only [List.mem_map, List.mem_filter]
  constructor
  · rintro ⟨q, ⟨hq, hs⟩, hid⟩
    exact ⟨q, hq, hs, hid⟩
  · rintro ⟨q, hq, hs, hid⟩
    exact ⟨q, ⟨hq, hs⟩, hid⟩

theorem mem_attemptedIds {records : List TaskRecord} {rid : String} :
    rid ∈ attemptedIds records ↔
      ∃ q, q ∈ records ∧ emailTruthy q = true ∧ q.id = rid := by
  unfold attemptedIds
  simp only [List.mem_map, List.mem_filter]
  constructor
  · rintro ⟨q, ⟨hq, hs⟩, hid⟩
    exact ⟨q, hq, hs, hid⟩
  · rintro ⟨q, hq, hs, hid⟩
    exact ⟨q, ⟨hq, hs⟩, hid⟩

theorem mem_patchedIds {smtp patchReq : String → Except String Unit}
    {records : List TaskRecord} {rid : String} :
    rid ∈ patchedIds smtp patchReq records ↔
      ∃ q, q ∈ records ∧ patchApplied smtp patchReq q = true ∧
        q.id = rid := by
  unfold patchedIds
  simp only [List.mem_map, List.mem_filter]
  constructor
  · rintro ⟨q, ⟨hq, hs⟩, hid⟩
    exact ⟨q, hq, hs, hid⟩
  · rintro ⟨q, hq, hs, hid⟩
    exact ⟨q, ⟨hq, hs⟩, hid⟩

/-- C1: on a Notifier tick, notify_due_tasks selects for notification
exactly the stored tasks with completed = false, a reminder timestamp at
most now, and a last-notified field that is empty or at least the
suppression window old; in particular a task already marked completed is
never selected. -/
theorem notify_selects_exactly_due (now : Nat) (store : List TaskRecord)
    (r : TaskRecord) (hmem : r ∈ store) :
    (r ∈ dueQuery store now ↔ specSelects now suppressionWindowSeconds r) ∧
    (r.completed = true → r ∉ dueQuery store now) := by
  have hiff : r ∈ dueQuery store now ↔
      specSelects now suppressionWindowSeconds r := by
    rw [mem_dueQuery_iff, dueFilter_iff_specSelects]
    unfold specSelects suppressionWindowSeconds
    constructor
    · rintro ⟨_, h⟩
      exact h
    · intro h
      exact ⟨hmem, h⟩
  refine ⟨hiff, ?_⟩
  intro hc hsel
  have := (hiff.mp hsel).1
  rw [hc] at this
  exact Bool.true_eq_false.mp this

/-- Demonstration record: due, uncompleted, never notified, owned. -/
def rDemo : TaskRecord :=
  TaskRecord.mk "rec1" (some "call mom") (some 10) (some "a@b.c") false none

theorem notify_selects_exactly_due_witness :
    (rDemo ∈ dueQuery [rDemo] 20 ↔
      specSelects 20 suppressionWindowSeconds rDemo) ∧
    (rDemo.completed = true → rDemo ∉ dueQuery [rDemo] 20) :=
  notify_selects_exactly_due 20 [rDemo] rDemo (List.mem_singleton.mpr rfl)

/-- C3: when the store query of a tick fails, notify_due_tasks returns
normally (the exception is caught inside the function, so nothing
propagates past the tick boundary) with no send attempted, nothing sent,
and the store, in particular every last-notified field, unchanged. -/
theorem notify_query_failure_noop
    (smtp patchReq : String → Except String Unit) (now : Nat)
    (store : List TaskRecord) :
    notify_due_tasks true smtp patchReq now store
      = TickResult.mk store [] [] := rfl

/-- C5: a send failure for one task does not abort the scan: whatever the
SMTP outcomes are, every qualifying task with a truthy owner email is still
attempted, and the attempted list does not depend on the SMTP outcomes at
all. -/
theorem notify_attempts_survive_failures
    (smtp patchReq : String → Except String Unit) (now : Nat)
    (store : List TaskRecord) (r : TaskRecord)
    (hq : r ∈ dueQuery store now) (hemail : emailTruthy r = true) :
    r.id ∈ (notify_due_tasks false smtp patchReq now store).attempted ∧
    (∀ smtp2 patchReq2 : String → Except String Unit,
      (notify_due_tasks false smtp2 patchReq2 now store).attempted
        = (notify_due_tasks false smtp patchReq now store).attempted) := by
  constructor
  · rw [notify_attempted_eq, mem_attemptedIds]
    exact ⟨r, hq, hemail, rfl⟩
  · intro smtp2 patchReq2
    rw [notify_attempted_eq, notify_attempted_eq]

/-- Concrete oracle: every SMTP call succeeds. -/
def smtpAllOk : String → Except String Unit := fun _ => Except.ok ()

/-- Concrete oracle: every SMTP call raises. -/
def smtpAllFail : String → Except String Unit :=
  fun _ => Except.error "connection refused"

/-- Concrete oracle: every PATCH call succeeds. -/
def patchAllOk : String → Except String Unit := fun _ => Except.ok ()

theorem notify_attempts_survive_failures_witness :
    rDemo.id ∈ (notify_due_tasks false smtpAllFail patchAllOk 20
      [rDemo]).attempted ∧
    (notify_due_tasks false smtpAllOk patchAllOk 20 [rDemo]).attempted
      = (notify_due_tasks false smtpAllFail patchAllOk 20
          [rDemo]).attempted :=
  And.intro
    (notify_attempts_survive_failures smtpAllFail patchAllOk 20 [rDemo]
      rDemo (by decide) (by decide)).1
    ((notify_attempts_survive_failures smtpAllFail patchAllOk 20 [rDemo]
      rDemo (by decide) (by decide)).2 smtpAllOk patchAllOk)

/-- C6: a task whose reminder timestamp is absent never passes the due
filter, hence is never selected by the query of any tick. -/
theorem no_reminder_never_selected (r : TaskRecord)
    (hnone : r.reminderLocal = none) :
    ∀ (now : Nat) (store : List TaskRecord),
      dueFilter now r = false ∧ r ∉ dueQuery store now := by
  intro now store
  have hfalse : dueFilter now r = false := by
    unfold dueFilter
    rw [hnone]
    simp
  refine ⟨hfalse, ?_⟩
  intro hmem
  have := (mem_dueQuery_iff store now r).mp hmem
  rw [hfalse] at this
  exact Bool.false_ne_true this.2

/-- Demonstration record with no reminder timestamp. -/
def rNoReminder : TaskRecord :=
  TaskRecord.mk "rec2" (some "someday") none (some "a@b.c") false none

theorem no_reminder_never_selected_witness :
    dueFilter 1000 rNoReminder = false ∧
      rNoReminder ∉ dueQuery [rNoReminder, rDemo] 1000 :=
  no_reminder_never_selected rNoReminder rfl 1000 [rNoReminder, rDemo]

theorem not_mem_sentIds_of_no_success
    {smtp : String → Except String Unit} {store : List TaskRecord}
    {now : Nat} {r : TaskRecord} (hmem : r ∈ store)
    (hnodup : (store.map TaskRecord.id).Nodup)
    (hns : sendSucceeds smtp r = false) :
    r.id ∉ sentIds smtp (dueQuery store now) := by
  intro hin
  obtain ⟨q, hqmem, hqs, hqid⟩ := mem_sentIds.mp hin
  have hqstore := ((mem_dueQuery_iff store now q).mp hqmem).1
  have : q = r := store_id_unique hnodup hqstore hmem hqid
  rw [this, hns] at hqs
  exact Bool.false_ne_true hqs

theorem store_entry_unchanged
    (smtp patchReq : String → Except String Unit) (now : Nat)
    (store : List TaskRecord) (r : TaskRecord)
    (hmem : r ∈ store) (hnodup : (store.map TaskRecord.id).Nodup)
    (hns : sendSucceeds smtp r = false) :
    r ∈ (notify_due_tasks false smtp patchReq now store).store ∧
    (∀ q ∈ (notify_due_tasks false smtp patchReq now store).store,
      q.id = r.id → q = r) := by
  have hnp : r.id ∉ patchedIds smtp patchReq (dueQuery store now) := by
    intro hin
    obtain ⟨q, hqmem, hqa, hqid⟩ := mem_patchedIds.mp hin
    have hqstore := ((mem_dueQuery_iff store now q).mp hqmem).1
    have hqr : q = r := store_id_unique hnodup hqstore hmem hqid
    rw [hqr] at hqa
    unfold patchApplied at hqa
    rw [hns] at hqa
    simp at hqa
  have hfix : patchFun smtp patchReq now (dueQuery store now) r = r := by
    unfold patchFun
    rw [if_neg hnp]
  rw [notify_store_eq]
  constructor
  · exact List.mem_map.mpr ⟨r, hmem, hfix⟩
  · intro q hq hqid
    obtain ⟨p, hpmem, hpq⟩ := List.mem_map.mp hq
    have hpid : p.id = r.id := by
      rw [← hqid, ← hpq, patchFun_id_preserved]
    have : p = r := store_id_unique hnodup hpmem hmem hpid
    rw [← hpq, this, hfix]

/-- C4: if sending the notification email for a task fails, the stored
record of that task, in particular its last-notified field, is unchanged
by the tick and the task is counted as not sent. Stated for either query
outcome. -/
theorem notify_send_failure_no_update
    (queryFails : Bool) (smtp patchReq : String → Except String Unit)
    (now : Nat) (store : List TaskRecord) (r : TaskRecord)
    (hmem : r ∈ store) (hnodup : (store.map TaskRecord.id).Nodup)
    (hfail : send_reminder_email (smtp r.id) = false) :
    r ∈ (notify_due_tasks queryFails smtp patchReq now store).store ∧
    (∀ q ∈ (notify_due_tasks queryFails smtp patchReq now store).store,
      q.id = r.id → q = r) ∧
    (notify_due_tasks queryFails smtp patchReq now store).sent.count r.id
      = 0 := by
  have hns : sendSucceeds smtp r = false := by
    unfold sendSucceeds
    rw [hfail]
    simp
  cases queryFails with
  | true =>
    have hnoop : notify_due_tasks true smtp patchReq now store
        = TickResult.mk store [] [] := rfl
    rw [hnoop]
    refine ⟨hmem, ?_, ?_⟩
    · intro q hq hqid
      exact store_id_unique hnodup hq hmem hqid
    · simp
  | false =>
    obtain ⟨h1, h2⟩ :=
      store_entry_unchanged smtp patchReq now store r hmem hnodup hns
    refine ⟨h1, h2, ?_⟩
    rw [notify_sent_eq, List.count_eq_zero]
    exact not_mem_sentIds_of_no_success hmem hnodup hns

theorem notify_send_failure_no_update_witness :
    rDemo ∈ (notify_due_tasks false smtpAllFail patchAllOk 20
      [rDemo]).store ∧
    (notify_due_tasks false smtpAllFail patchAllOk 20
      [rDemo]).sent.count rDemo.id = 0 :=
  And.intro
    (notify_send_failure_no_update false smtpAllFail patchAllOk 20 [rDemo]
      rDemo (by decide) (by decide) (by decide)).1
    (notify_send_failure_no_update false smtpAllFail patchAllOk 20 [rDemo]
      rDemo (by decide) (by decide) (by decide)).2.2

/-- C10: a record returned by the due-task query with no owner email field
is neither attempted nor sent, its stored record is unchanged by the tick,
and it still satisfies the due query of every later tick. -/
theorem notify_missing_email_skipped
    (smtp patchReq : String → Except String Unit) (now : Nat)
    (store : List TaskRecord) (r : TaskRecord)
    (hq : r ∈ dueQuery store now)
    (hnodup : (store.map TaskRecord.id).Nodup)
    (hemail : r.email = none) :
    r.id ∉ (notify_due_tasks false smtp patchReq now store).attempted ∧
    r.id ∉ (notify_due_tasks false smtp patchReq now store).sent ∧
    r ∈ (notify_due_tasks false smtp patchReq now store).store ∧
    (∀ q ∈ (notify_due_tasks false smtp patchReq now store).store,
      q.id = r.id → q = r) ∧
    (∀ t2, now ≤ t2 →
      r ∈ dueQuery
        (notify_due_tasks false smtp patchReq now store).store t2) := by
  have hmem := ((mem_dueQuery_iff store now r).mp hq).1
  have hdue := ((mem_dueQuery_iff store now r).mp hq).2
  have het : emailTruthy r = false := by
    unfold emailTruthy pyTruthy
    rw [hemail]
  have hns : sendSucceeds smtp r = false := by
    unfold sendSucceeds
    rw [het]
    simp
  obtain ⟨hstill, huniq⟩ :=
    store_entry_unchanged smtp patchReq now store r hmem hnodup hns
  refine ⟨?_, ?_, hstill, huniq, ?_⟩
  · rw [notify_attempted_eq]
    intro hin
    obtain ⟨q, hqmem, hqe, hqid⟩ := mem_attemptedIds.mp hin
    have hqstore := ((mem_dueQuery_iff store now q).mp hqmem).1
    have : q = r := store_id_unique hnodup hqstore hmem hqid
    rw [this, het] at hqe
    exact Bool.false_ne_true hqe
  · rw [notify_sent_eq]
    exact not_mem_sentIds_of_no_success hmem hnodup hns
  · intro t2 h12
    exact (mem_dueQuery_iff _ t2 r).mpr ⟨hstill, dueFilter_mono h12 hdue⟩

/-- Demonstration record that is due but carries no owner email field. -/
def rNoEmail : TaskRecord :=
  TaskRecord.mk "rec3" (some "orphan") (some 5) none false none

theorem notify_missing_email_skipped_witness :
    rNoEmail.id ∉ (notify_due_tasks false smtpAllOk patchAllOk 20
      [rNoEmail]).attempted ∧
    rNoEmail ∈ (notify_due_tasks false smtpAllOk patchAllOk 20
      [rNoEmail]).store ∧
    rNoEmail ∈ dueQuery
      (notify_due_tasks false smtpAllOk patchAllOk 20 [rNoEmail]).store
      80 :=
  And.intro
    (notify_missing_email_skipped smtpAllOk patchAllOk 20 [rNoEmail]
      rNoEmail (by decide) (by decide) rfl).1
    (And.intro
      (notify_missing_email_skipped smtpAllOk patchAllOk 20 [rNoEmail]
        rNoEmail (by decide) (by decide) rfl).2.2.1
      ((notify_missing_email_skipped smtpAllOk patchAllOk 20 [rNoEmail]
        rNoEmail (by decide) (by decide) rfl).2.2.2.2 80 (by norm_num)))

/-- C2: a task that is due at the first of two ticks lying inside one
suppression window, whose send and subsequent PATCH both succeed, is sent
exactly once by the first tick and not at all by the second: the PATCH set
its last-notified to the first tick time, so the due query of the second
tick (whose distance from the first is under the window) rejects it. -/
theorem notify_suppresses_second_tick
    (smtp1 patch1 smtp2 patch2 : String → Except String Unit)
    (t1 t2 : Nat) (store : List TaskRecord) (r : TaskRecord)
    (hmem : r ∈ store) (hnodup : (store.map TaskRecord.id).Nodup)
    (hdue : dueFilter t1 r = true)
    (hemail : emailTruthy r = true)
    (hsend : send_reminder_email (smtp1 r.id) = true)
    (hpatch : exceptOk (patch1 r.id) = true)
    (h12 : t1 ≤ t2) (hwin : t2 < t1 + suppressionWindowSeconds) :
    (notify_due_tasks false smtp1 patch1 t1 store).sent.count r.id = 1 ∧
    (notify_due_tasks false smtp2 patch2 t2
      (notify_due_tasks false smtp1 patch1 t1 store).store).sent.count
        r.id = 0 := by
  have hq1 : r ∈ dueQuery store t1 :=
    (mem_dueQuery_iff store t1 r).mpr ⟨hmem, hdue⟩
  have hss : sendSucceeds smtp1 r = true := by
    unfold sendSucceeds
    rw [hemail, hsend]
    rfl
  constructor
  · rw [notify_sent_eq]
    have hin : r.id ∈ sentIds smtp1 (dueQuery store t1) :=
      mem_sentIds.mpr ⟨r, hq1, hss, rfl⟩
    exact List.count_eq_one_of_mem (sentIds_nodup smtp1 store t1 hnodup)
      hin
  · have hpa : patchApplied smtp1 patch1 r = true := by
      unfold patchApplied
      rw [hss, hpatch]
      rfl
    have hpid : r.id ∈ patchedIds smtp1 patch1 (dueQuery store t1) :=
      mem_patchedIds.mpr ⟨r, hq1, hpa, rfl⟩
    have hr1 : patchFun smtp1 patch1 t1 (dueQuery store t1) r
        = { r with lastNotifiedAt := some t1 } := by
      unfold patchFun
      rw [if_pos hpid]
    rw [notify_sent_eq, List.count_eq_zero, notify_store_eq]
    intro hin
    obtain ⟨q, hqmem, hqs, hqid⟩ := mem_sentIds.mp hin
    have hqstore := ((mem_dueQuery_iff _ t2 q).mp hqmem).1
    have hqdue := ((mem_dueQuery_iff _ t2 q).mp hqmem).2
    obtain ⟨p, hpmem, hpq⟩ := List.mem_map.mp hqstore
    have hpid2 : p.id = r.id := by
      rw [← hqid, ← hpq, patchFun_id_preserved]
    have hpr : p = r := store_id_unique hnodup hpmem hmem hpid2
    rw [hpr, hr1] at hpq
    rw [← hpq] at hqdue
    rw [dueFilter_iff_specSelects] at hqdue
    obtain ⟨-, -, hlast⟩ := hqdue
    cases hlast with
    | inl hnone => exact Option.some_ne_none t1 hnone
    | inr hsome =>
      obtain ⟨l, hl, hwindow⟩ := hsome
      have hlt1 : l = t1 := by
        have h2 : some l = some t1 := hl.symm
        exact Option.some_inj.mp h2
      rw [hlt1] at hwindow
      unfold suppressionWindowSeconds at hwin
      omega

theorem notify_suppresses_second_tick_witness :
    (notify_due_tasks false smtpAllOk patchAllOk 20 [rDemo]).sent.count
      rDemo.id = 1 ∧
    (notify_due_tasks false smtpAllOk patchAllOk 50
      (notify_due_tasks false smtpAllOk patchAllOk 20
        [rDemo]).store).sent.count rDemo.id = 0 :=
  notify_suppresses_second_tick smtpAllOk patchAllOk smtpAllOk patchAllOk
    20 50 [rDemo] rDemo (by decide) (by decide) (by decide) (by decide)
    (by decide) (by decide) (by norm_num) (by decide)

/-- The settings dictionary passed to dateparser.parse by
parse_natural_date (src/app.py lines 228-231). -/
structure DateSettings where
  timeZone : String
  returnAsTimezoneAware : Bool
  preferDatesFrom : String
deriving Repr, DecidableEq

/-- The literal settings of the call in parse_natural_date: TIMEZONE is
UTC, RETURN_AS_TIMEZONE_AWARE is true, PREFER_DATES_FROM is future. -/
def parseSettings : DateSettings := DateSettings.mk "UTC" true "future"

/-- parse_natural_date (src/app.py lines 223-235). The external
dateparser.parse call is the dparse argument; its first argument is the
system clock at the moment of the call, because the Python call passes no
RELATIVE_BASE, so dateparser resolves relative phrases against the current
time. A falsy text returns none, an unparseable text returns none, and a
parsed result is the UTC instant that the source then serializes as an
ISO-8601 string with a Z suffix (the serialization, a calendar rendering
of the same instant, is left abstract here). -/
def parse_natural_date (dparse : Nat → String → DateSettings → Option Nat)
    (sysNow : Nat) (text : String) : Option Nat :=
  if text = "" then none
  else dparse sysNow text parseSettings

/-- A concrete dateparser behaviour used for evaluation: the phrase
for the next day resolves to one day after the reference instant, and
everything else is unparseable. It honours the future preference. -/
def dparseDemo : Nat → String → DateSettings → Option Nat :=
  fun ref text _ => if text = "tomorrow" then some (ref + 86400) else none

/-- Structured fields extracted from the model output, the result of
json.loads in ask_ai_structured read with dict.get: each field may be
absent. -/
structure IntentFields where
  action : Option String
  task : Option String
  date : Option String
  priority : Option String
deriving Repr, DecidableEq

/-- The dictionary returned by ask_ai_structured and ask_ai: either a
success carrying the decoded fields or an error carrying a message. -/
inductive AIReply where
  | success (result : IntentFields)
  | error (message : String)
deriving Repr, DecidableEq

/-- Whether an AIReply is the error variant. -/
def AIReply.isError : AIReply → Bool
  | AIReply.success _ => false
  | AIReply.error _ => true

/-- The retry loop of ask_ai_structured (src/app.py lines 179-210). The
gen argument gives, per attempt index, the outcome of the Gemini call:
an exception, a falsy response text, or a response text. A falsy response
returns the empty-response error at once; an undecodable response raises
and is caught like a call exception; an exception retries until the last
attempt, which returns the retries-exhausted error. The fuel counts the
remaining loop iterations. -/
def askAiLoop (gen : Nat → Except String (Option String))
    (decode : String → Option IntentFields) :
    Nat → Nat → AIReply
  | 0, _ => AIReply.error "An unknown error occurred with the AI service."
  | remaining + 1, attempt =>
    match gen attempt with
    | Except.error e =>
      if remaining = 0 then
        AIReply.error ("AI service failed after multiple retries. Error: "
          ++ e)
      else askAiLoop gen decode remaining (attempt + 1)
    | Except.ok none => AIReply.error "AI returned an empty response."
    | Except.ok (some text) =>
      match decode text with
      | some fields => AIReply.success fields
      | none =>
        if remaining = 0 then
          AIReply.error
            ("AI service failed after multiple retries. Error: "
              ++ "AI returned invalid JSON.")
        else askAiLoop gen decode remaining (attempt + 1)

/-- ask_ai_structured (src/app.py lines 164-212): guards for a missing
API key, a missing SDK and a missing schema or system instruction, then
runs the retry loop with max_retries = 3 starting at attempt 0. In the
source the schema and instruction are present exactly when the SDK
imported; schemaOk keeps that guard explicit. -/
def ask_ai_structured (apiKey : Option String) (hasSdk schemaOk : Bool)
    (gen : Nat → Except String (Option String))
    (decode : String → Option IntentFields) : AIReply :=
  if pyTruthy apiKey = false then
    AIReply.error "Gemini API Key is not configured."
  else if hasSdk = false then
    AIReply.error
      "Google Generative AI SDK is not available. Please ensure it is installed."
  else if schemaOk = false then
    AIReply.error "AI configuration error (Missing Schema or System Instruction)."
  else askAiLoop gen decode 3 0

/-- ask_ai (src/app.py lines 215-220): an empty utterance is answered with
an error reply without calling the model; otherwise the call is delegated
to ask_ai_structured. -/
def ask_ai (userText : String) (apiKey : Option String)
    (hasSdk schemaOk : Bool)
    (gen : Nat → Except String (Option String))
    (decode : String → Option IntentFields) : AIReply :=
  if userText = "" then AIReply.error "No input provided."
  else ask_ai_structured apiKey hasSdk schemaOk gen decode

/-- The fallback conversational message of the ai_process endpoint
(src/app.py line 269; the apostrophe of the source text is written as an
escape). -/
def defaultHelpMessage : String :=
  "I\x27m here to help you manage your tasks!"

/-- Python x or d for an optional string x: the string when truthy,
otherwise the default. -/
def orDefault (o : Option String) (d : String) : String :=
  if pyTruthy o then o.getD "" else d

/-- Response of the ai_process endpoint, by variant: an error body, the
conversational success body, or the task-added success body carrying the
task name and the parsed reminder instant. HTTP status codes and the
confirmation message text are not modelled. -/
inductive ApiResponse where
  | errorResp (message : String)
  | general (message : String)
  | added (task : Option String) (reminder : Option Nat)
deriving Repr, DecidableEq

/-- The body of the Airtable POST issued by ai_process (src/app.py lines
284-298): Task Name, Completed false, the session email, and Reminder
Local exactly when a reminder instant was parsed. -/
structure InsertRequest where
  taskName : Option String
  completed : Bool
  email : String
  reminderLocal : Option Nat
deriving Repr, DecidableEq

/-- The ai_process endpoint (src/app.py lines 239-318). Returns the
response body together with the list of store-mutation requests issued
during the call (the Airtable POST of the add branch is the only one).
postResult models the POST: an exception, or a flag for a 200/201 status.
The auth guard, the empty-input guard, the ask_ai call, the conversational
branch for an action other than add, the natural-language date parse and
the save follow the source order. -/
def ai_process (loggedIn : Bool) (userEmail : String) (userInput : String)
    (apiKey : Option String) (hasSdk schemaOk : Bool)
    (gen : Nat → Except String (Option String))
    (decode : String → Option IntentFields)
    (dparse : Nat → String → DateSettings → Option Nat) (sysNow : Nat)
    (airtableConfigured : Bool) (postResult : Except String Bool) :
    ApiResponse × List InsertRequest :=
  if loggedIn = false then
    (ApiResponse.errorResp "Authentication required", [])
  else if userInput = "" then
    (ApiResponse.errorResp "No text provided", [])
  else
    match ask_ai userInput apiKey hasSdk schemaOk gen decode with
    | AIReply.error m => (ApiResponse.errorResp m, [])
    | AIReply.success result =>
      if result.action = some "add" then
        let reminderTime :=
          if pyTruthy result.date then
            parse_natural_date dparse sysNow (result.date.getD "")
          else none
        if airtableConfigured = false then
          (ApiResponse.errorResp "Airtable not configured", [])
        else
          let req := InsertRequest.mk result.task false userEmail
            reminderTime
          match postResult with
          | Except.error e =>
            (ApiResponse.errorResp ("Airtable error: " ++ e), [req])
          | Except.ok true =>
            (ApiResponse.added result.task reminderTime, [req])
          | Except.ok false =>
            (ApiResponse.errorResp
              "Airtable save failed due to server configuration or API error.",
              [req])
      else
        (ApiResponse.general (orDefault result.task defaultHelpMessage),
          [])

/-- C7 counterexample: parse_natural_date has no caller-supplied reference
time; its resolution base is the system clock at the moment of the call.
With the caller-visible input fixed (the same phrase, and no reference
argument exists to supply) and a fixed dateparser behaviour, the result
changes when only the system clock changes, so ambiguous relative phrases
are not resolved against a caller-supplied reference time. -/
theorem parse_date_reference_is_system_clock :
    parse_natural_date dparseDemo 0 "tomorrow" = some 86400 ∧
    parse_natural_date dparseDemo 100000 "tomorrow" = some 186400 ∧
    parse_natural_date dparseDemo 0 "tomorrow"
      ≠ parse_natural_date dparseDemo 100000 "tomorrow" := by
  decide

/-- C7 amended: parse_natural_date resolves relative phrases against the
system time at the moment of the call (not a caller-supplied reference,
which does not exist in its signature), requests the future preference and
timezone-aware UTC output from dateparser, returns none for an empty or
unparseable phrase, and otherwise returns a UTC instant that, for any
dateparser honouring the requested future preference, is no earlier than
the resolution reference. -/
theorem parse_natural_date_spec
    (dparse : Nat → String → DateSettings → Option Nat) (sysNow : Nat)
    (text : String)
    (hfuture : ∀ t i, dparse sysNow t parseSettings = some i →
      sysNow ≤ i) :
    (text = "" → parse_natural_date dparse sysNow text = none) ∧
    (dparse sysNow text parseSettings = none →
      parse_natural_date dparse sysNow text = none) ∧
    (∀ i, parse_natural_date dparse sysNow text = some i → sysNow ≤ i) ∧
    parseSettings.preferDatesFrom = "future" ∧
    parseSettings.returnAsTimezoneAware = true ∧
    parseSettings.timeZone = "UTC" := by
  refine ⟨?_, ?_, ?_, rfl, rfl, rfl⟩
  · intro h
    simp [parse_natural_date, h]
  · intro h
    unfold parse_natural_date
    by_cases ht : text = "" <;> simp [ht, h]
  · intro i hi
    unfold parse_natural_date at hi
    by_cases ht : text = ""
    · rw [if_pos ht] at hi
      exact absurd hi (by simp)
    · rw [if_neg ht] at hi
      exact hfuture text i hi

theorem parse_natural_date_spec_witness :
    parse_natural_date dparseDemo 1000 "" = none ∧
    parseSettings.preferDatesFrom = "future" :=
  And.intro
    ((parse_natural_date_spec dparseDemo 1000 ""
      (by
        intro t i h
        by_cases ht : t = "tomorrow" <;> simp [dparseDemo, ht] at h
        omega)).1 rfl)
    ((parse_natural_date_spec dparseDemo 1000 ""
      (by
        intro t i h
        by_cases ht : t = "tomorrow" <;> simp [dparseDemo, ht] at h
        omega)).2.2.2.1)

/-- An attempt whose model call returns text that json decoding rejects:
the output is not decodable as the expected structured shape. -/
def undecodableAttempt (gen : Nat → Except String (Option String))
    (decode : String → Option IntentFields) (n : Nat) : Prop :=
  ∃ t, gen n = Except.ok (some t) ∧ decode t = none

theorem askAiLoop_undecodable_isError
    (gen : Nat → Except String (Option String))
    (decode : String → Option IntentFields)
    (hall : ∀ n, undecodableAttempt gen decode n) :
    ∀ (fuel attempt : Nat),
      (askAiLoop gen decode fuel attempt).isError = true := by
  intro fuel
  induction fuel with
  | zero =>
    intro attempt
    rfl
  | succ rem ih =>
    intro attempt
    obtain ⟨t, hg, hd⟩ := hall attempt
    rw [askAiLoop, hg]
    simp only [hd]
    by_cases hr : rem = 0
    · simp [hr, AIReply.isError]
    · simp only [if_neg hr]
      exact ih (attempt + 1)

/-- C8: each Intent Extractor error condition is surfaced as an error
reply rather than raised: an empty utterance, a missing API key, a missing
SDK, and a model whose output is never decodable as the expected
structured shape all make ask_ai return the error variant. The embedded
functions are total, so no exception reaches the caller. -/
theorem ask_ai_errors_surfaced (userText : String) (apiKey : Option String)
    (hasSdk schemaOk : Bool)
    (gen : Nat → Except String (Option String))
    (decode : String → Option IntentFields) :
    (userText = "" →
      (ask_ai userText apiKey hasSdk schemaOk gen decode).isError
        = true) ∧
    (pyTruthy apiKey = false →
      (ask_ai userText apiKey hasSdk schemaOk gen decode).isError
        = true) ∧
    (hasSdk = false →
      (ask_ai userText apiKey hasSdk schemaOk gen decode).isError
        = true) ∧
    ((∀ n, undecodableAttempt gen decode n) →
      (ask_ai userText apiKey hasSdk schemaOk gen decode).isError
        = true) := by
  refine ⟨?_, ?_, ?_, ?_⟩
  · intro h
    simp [ask_ai, h, AIReply.isError]
  · intro h
    by_cases ht : userText = ""
    · simp [ask_ai, ht, AIReply.isError]
    · simp [ask_ai, ht, ask_ai_structured, h, AIReply.isError]
  · intro h
    by_cases ht : userText = ""
    · simp [ask_ai, ht, AIReply.isError]
    · cases hk : pyTruthy apiKey with
      | false =>
        simp [ask_ai, ht, ask_ai_structured, hk, AIReply.isError]
      | true =>
        simp [ask_ai, ht, ask_ai_structured, hk, h, AIReply.isError]
  · intro hall
    by_cases ht : userText = ""
    · simp [ask_ai, ht, AIReply.isError]
    · cases hk : pyTruthy apiKey with
      | false =>
        simp [ask_ai, ht, ask_ai_structured, hk, AIReply.isError]
      | true =>
        cases hs : hasSdk with
        | false =>
          simp [ask_ai, ht, ask_ai_structured, hk, hs, AIReply.isError]
        | true =>
          cases hc : schemaOk with
          | false =>
            simp [ask_ai, ht, ask_ai_structured, hk, hs, hc,
              AIReply.isError]
          | true =>
            have hloop := askAiLoop_undecodable_isError gen decode hall 3 0
            simp [ask_ai, ht, ask_ai_structured, hk, hs, hc, hloop]

/-- Concrete model behaviour: every attempt returns the same text. -/
def genPlainText : Nat → Except String (Option String) :=
  fun _ => Except.ok (some "this is not json")

/-- Concrete decoder that rejects every text. -/
def decodeNever : String → Option IntentFields := fun _ => none

theorem ask_ai_errors_surfaced_witness :
    (ask_ai "remind me" (some "key") true true genPlainText
      decodeNever).isError = true :=
  (ask_ai_errors_surfaced "remind me" (some "key") true true genPlainText
    decodeNever).2.2.2
    (fun _ => Exists.intro "this is not json" (And.intro rfl rfl))

theorem orDefault_ne_empty (o : Option String) (d : String)
    (hd : d ≠ "") : orDefault o d ≠ "" := by
  unfold orDefault
  cases ho : pyTruthy o with
  | false =>
    simpa [ho] using hd
  | true =>
    cases o with
    | none => simp [pyTruthy] at ho
    | some s =>
      simp [pyTruthy] at ho
      simpa using ho

/-- C9: when the extracted action is anything other than add, the
ai_process endpoint answers with the conversational response (the task
field of the model output, or the fallback help text, in either case a
nonempty message) and issues no store mutation at all. -/
theorem ai_process_non_add_no_mutation
    (userEmail userInput : String) (apiKey : Option String)
    (hasSdk schemaOk : Bool)
    (gen : Nat → Except String (Option String))
    (decode : String → Option IntentFields)
    (dparse : Nat → String → DateSettings → Option Nat) (sysNow : Nat)
    (airtableConfigured : Bool) (postResult : Except String Bool)
    (result : IntentFields)
    (hinput : userInput ≠ "")
    (hai : ask_ai userInput apiKey hasSdk schemaOk gen decode
      = AIReply.success result)
    (haction : result.action ≠ some "add") :
    (ai_process true userEmail userInput apiKey hasSdk schemaOk gen decode
      dparse sysNow airtableConfigured postResult).1
      = ApiResponse.general (orDefault result.task defaultHelpMessage) ∧
    orDefault result.task defaultHelpMessage ≠ "" ∧
    (ai_process true userEmail userInput apiKey hasSdk schemaOk gen decode
      dparse sysNow airtableConfigured postResult).2 = [] := by
  have hmain : ai_process true userEmail userInput apiKey hasSdk schemaOk
      gen decode dparse sysNow airtableConfigured postResult
      = (ApiResponse.general (orDefault result.task defaultHelpMessage),
          []) := by
    unfold ai_process
    rw [hai]
    simp [hinput, haction]
  refine ⟨?_, ?_, ?_⟩
  · rw [hmain]
  · exact orDefault_ne_empty result.task defaultHelpMessage (by decide)
  · rw [hmain]

/-- Concrete model behaviour for a conversational utterance. -/
def genWeather : Nat → Except String (Option String) :=
  fun _ => Except.ok (some "OUT")

/-- Concrete structured fields for a conversational reply. -/
def weatherFields : IntentFields :=
  IntentFields.mk (some "general") (some "It is sunny.") none none

/-- Concrete decoder for the conversational reply text. -/
def decodeWeather : String → Option IntentFields :=
  fun s => if s = "OUT" then some weatherFields else none

theorem ai_process_non_add_no_mutation_witness :
    (ai_process true "u@example.com" "what is the weather" (some "key")
      true true genWeather decodeWeather dparseDemo 0 true
      (Except.ok true)).1
      = ApiResponse.general (orDefault weatherFields.task
          defaultHelpMessage) ∧
    (ai_process true "u@example.com" "what is the weather" (some "key")
      true true genWeather decodeWeather dparseDemo 0 true
      (Except.ok true)).2 = [] :=
  And.intro
    (ai_process_non_add_no_mutation "u@example.com" "what is the weather"
      (some "key") true true genWeather decodeWeather dparseDemo 0 true
      (Except.ok true) weatherFields (by decide) (by decide)
      (by decide)).1
    (ai_process_non_add_no_mutation "u@example.com" "what is the weather"
      (some "key") true true genWeather decodeWeather dparseDemo 0 true
      (Except.ok true) weatherFields (by decide) (by decide)
      (by decide)).2.2
